import Mathlib

/-!
Shallow embedding of `cmd/vkube/util.go` from the virtuakube repository.

Errors are modelled by their message strings; `fmt.Errorf("tag: %v", err)`
becomes concatenation of the tag and the wrapped message. The external
collaborators (the filesystem stat, `virtuakube.Create`, `virtuakube.Open`,
the caller-supplied work function, and the `Save`/`Close` methods of a
universe handle) are modelled by an oracle record fixing their outcomes, and
the control flow records the sequence of calls it performs as a trace.
-/

/-- Error values, modelled by their message strings (a Go `error`). -/
abbrev Err := String

/-- The `universeFlags` struct of util.go. -/
structure universeFlags where
  dir : String
  snapshot : String
  verbose : Bool
  vmgraphics : Bool
  acceleration : Bool
  wait : Bool
  save : Bool
  saveName : String
deriving Repr, DecidableEq

/-- The `virtuakube.UniverseConfig` record as populated by
`openOrCreateUniverse`; `CommandLog` is tracked as whether a sink was
attached (it is `os.Stdout` exactly when `verbose` is set). -/
structure UniverseConfig where
  vmGraphics : Bool
  interactive : Bool
  noAcceleration : Bool
  commandLog : Bool
deriving Repr, DecidableEq

/-- Outcome of the `os.Stat(dir)` existence check in `openOrCreateUniverse`:
the path does not exist (`os.IsNotExist(err)`), it exists (`err == nil`), or
the stat failed with some other error. -/
inductive StatResult
  | notExists
  | found
  | statError (e : Err)
deriving Repr, DecidableEq

/-- A `*virtuakube.Universe` handle. Its identity is irrelevant to the
control flow of util.go; only the oracle outcomes matter. -/
structure Universe where
  id : Nat := 0
deriving Repr, DecidableEq

/-- Result of `virtuakube.Create` / `virtuakube.Open`. -/
inductive PResult
  | ok (u : Universe)
  | fail (e : Err)
deriving Repr, DecidableEq

/-- Oracle for the external collaborators consulted by
`openOrCreateUniverse`: the stat outcome and the provider results. -/
structure Provider where
  stat : StatResult
  createResult : PResult
  openResult : PResult
deriving Repr, DecidableEq

/-- Provider calls recorded by `openOrCreateUniverse`. -/
inductive PCall
  | create (dir : String) (cfg : UniverseConfig)
  | openU (dir snapshot : String) (cfg : UniverseConfig)
deriving Repr, DecidableEq

/-- The configuration record built inside `openOrCreateUniverse`. -/
def mkUniverseConfig (verbose vmgraphics interactive acceleration : Bool) :
    UniverseConfig :=
  { vmGraphics := vmgraphics
    interactive := interactive
    noAcceleration := !acceleration
    commandLog := verbose }

/-- The configuration carried by a provider call. -/
def PCall.cfg : PCall → UniverseConfig
  | .create _ c => c
  | .openU _ _ c => c

/-- `openOrCreateUniverse` from util.go: rejects an empty directory, stats
the directory, creates on not-exists, surfaces any other stat error
unmodified, and otherwise opens with the requested snapshot; create/open
failures are wrapped as `getting universe: %v`. Returns the trace of
provider calls together with the result. -/
def openOrCreateUniverse (dir snapshot : String)
    (verbose vmgraphics interactive acceleration : Bool) (p : Provider) :
    List PCall × PResult :=
  if dir = "" then ([], .fail "universe directory not specified")
  else
    match p.stat with
    | .notExists =>
      match p.createResult with
      | .fail e =>
        ([.create dir (mkUniverseConfig verbose vmgraphics interactive acceleration)],
          .fail ("getting universe: " ++ e))
      | .ok u =>
        ([.create dir (mkUniverseConfig verbose vmgraphics interactive acceleration)],
          .ok u)
    | .statError e => ([], .fail e)
    | .found =>
      match p.openResult with
      | .fail e =>
        ([.openU dir snapshot (mkUniverseConfig verbose vmgraphics interactive acceleration)],
          .fail ("getting universe: " ++ e))
      | .ok u =>
        ([.openU dir snapshot (mkUniverseConfig verbose vmgraphics interactive acceleration)],
          .ok u)

/-- Oracle for `runDoWithUniverse`: the provider oracle plus the outcomes of
the work function `do`, of the explicit `u.Save` and of the explicit
`u.Close` (`none` means a nil Go error). The error of the deferred
`u.Close()` is discarded by the Go code, so it needs no oracle entry. -/
structure World where
  provider : Provider
  doErr : Option Err
  saveErr : Option Err
  closeErr : Option Err
deriving Repr, DecidableEq

/-- Calls recorded by `runDoWithUniverse`: provider calls, the invocation of
the work function, entry into the wait/report phase (printing resources and
blocking on the cancellation event), `u.Save(name)` and `u.Close()`. -/
inductive Call
  | provider (c : PCall)
  | doWork
  | waitPhase
  | save (name : String)
  | close
deriving Repr, DecidableEq

/-- The save-name computation of `runDoWithUniverse`, translated literally:
`saveName := flags.saveName; if saveName == "" && saveName != flags.snapshot
\x7b saveName = flags.snapshot \x7d`. -/
def effectiveSaveName (saveName snapshot : String) : String :=
  if saveName = "" ∧ saveName ≠ snapshot then snapshot else saveName

/-- Nanoseconds in a Go `time.Millisecond`. -/
def Millisecond : Int := 1000000

/-- Nanoseconds in a Go `time.Second`. -/
def Second : Int := 1000000000

/-- Go `time.Duration.Truncate`: rounds toward zero to a multiple of `m`
(`m ≤ 0` returns `d` unchanged). Go's `%` truncates toward zero, which is
`Int.tmod`. -/
def Duration.truncate (d m : Int) : Int :=
  if m ≤ 0 then d else d - Int.tmod d m

/-- The duration display switch of `runDoWithUniverse`, translated literally
(a Go `switch` takes the first case whose condition holds; the second case
repeats the condition `d < time.Second` of the first):
milliseconds, then tenths of a second, then the `default` case of whole
seconds. -/
def displayDuration (d : Int) : Int :=
  if d < Second then Duration.truncate d Millisecond
  else if d < Second then Duration.truncate d (Second / 10)
  else Duration.truncate d Second

/-- `runDoWithUniverse` from util.go: opens or creates the universe (an
error there is wrapped as `Getting universe: %v` and returned), installs
`defer u.Close()`, runs the work function (its error is returned verbatim),
optionally enters the wait phase, then either saves (wrapping a failure as
`Saving universe: %v`) or explicitly closes (wrapping a failure as
`Closing universe: %v`). The deferred close appends a `close` call on every
return path after a successful open; its error is discarded. Returns the
call trace and the function's returned error. -/
def runDoWithUniverse (flags : universeFlags) (w : World) :
    List Call × Option Err :=
  match openOrCreateUniverse flags.dir flags.snapshot flags.verbose
      flags.vmgraphics flags.wait flags.acceleration w.provider with
  | (ptrace, .fail e) => (ptrace.map Call.provider, some ("Getting universe: " ++ e))
  | (ptrace, .ok _u) =>
    match w.doErr with
    | some e => (ptrace.map Call.provider ++ [.doWork, .close], some e)
    | none =>
      if flags.save then
        match w.saveErr with
        | some e =>
          (ptrace.map Call.provider ++ [.doWork] ++
              (if flags.wait then [Call.waitPhase] else []) ++
              [.save (effectiveSaveName flags.saveName flags.snapshot), .close],
            some ("Saving universe: " ++ e))
        | none =>
          (ptrace.map Call.provider ++ [.doWork] ++
              (if flags.wait then [Call.waitPhase] else []) ++
              [.save (effectiveSaveName flags.saveName flags.snapshot), .close],
            none)
      else
        match w.closeErr with
        | some e =>
          (ptrace.map Call.provider ++ [.doWork] ++
              (if flags.wait then [Call.waitPhase] else []) ++ [.close, .close],
            some ("Closing universe: " ++ e))
        | none =>
          (ptrace.map Call.provider ++ [.doWork] ++
              (if flags.wait then [Call.waitPhase] else []) ++ [.close, .close],
            none)

/-- The result component of the open-or-create step as performed by
`runDoWithUniverse` on the given flags and oracle. -/
def sessionOpenResult (flags : universeFlags) (w : World) : PResult :=
  (openOrCreateUniverse flags.dir flags.snapshot flags.verbose
      flags.vmgraphics flags.wait flags.acceleration w.provider).2

/-- Whether a call is a `Save` invocation. -/
def Call.isSave : Call → Bool
  | .save _ => true
  | _ => false

/-- Whether a call is a `Close` invocation. -/
def Call.isClose : Call → Bool
  | .close => true
  | _ => false

/-- Number of `Save` invocations in a trace. -/
def countSave (t : List Call) : Nat := (t.filter Call.isSave).length

/-- Number of `Close` invocations in a trace. -/
def countClose (t : List Call) : Nat := (t.filter Call.isClose).length

/-- State of the cancellation machinery built by `runDoWithUniverse` out of
`context.WithCancel` and the interrupt-relaying goroutine: `cancelled` is
the context's already-cancelled flag, `fires` counts how many times the
shared cancellation event (the closing of the Done channel) has fired. -/
structure CancelState where
  cancelled : Bool
  fires : Nat
deriving Repr, DecidableEq

/-- The `cancel` function returned by `context.WithCancel`: the first call
fires the cancellation event, subsequent calls do nothing. -/
def cancel (s : CancelState) : CancelState :=
  if s.cancelled then s else { cancelled := true, fires := s.fires + 1 }

/-- Triggers that reach `cancel` in util.go: delivery of an OS interrupt
(relayed by the signal goroutine, whose deferred `cancel()` runs when it
observes the interrupt) and the main function's own `defer cancel()`. -/
inductive CAction
  | interrupt
  | mainCancel
deriving Repr, DecidableEq

/-- One trigger step: every trigger ends up invoking `cancel`. -/
def stepCancel (s : CancelState) : CAction → CancelState
  | .interrupt => cancel s
  | .mainCancel => cancel s

/-- Run the cancellation machinery over an arbitrary sequence of triggers,
starting from the fresh context. -/
def runCancel (as : List CAction) : CancelState :=
  as.foldl stepCancel { cancelled := false, fires := 0 }

/-- The suffix of `runDoWithUniverse`'s call trace after a successful open:
the work invocation, then (on work success) the optional wait phase and the
finalization calls, including the deferred close. -/
def runTail (flags : universeFlags) (w : World) : List Call :=
  match w.doErr with
  | some _ => [Call.doWork, Call.close]
  | none =>
    [Call.doWork] ++ (if flags.wait then [Call.waitPhase] else []) ++
      (if flags.save then
        [Call.save (effectiveSaveName flags.saveName flags.snapshot), Call.close]
      else [Call.close, Call.close])

/-- The error returned by `runDoWithUniverse` after a successful open. -/
def runErr (flags : universeFlags) (w : World) : Option Err :=
  match w.doErr with
  | some e => some e
  | none =>
    if flags.save then
      match w.saveErr with
      | some e => some ("Saving universe: " ++ e)
      | none => none
    else
      match w.closeErr with
      | some e => some ("Closing universe: " ++ e)
      | none => none

lemma effectiveSaveName_eq (o s : String) :
    effectiveSaveName o s = if o = "" then s else o := by
  unfold effectiveSaveName
  split <;> rename_i hc
  · simp [hc.1]
  · by_cases ho : o = "" <;> simp_all

lemma runDo_fail (flags : universeFlags) (w : World) (e : Err)
    (hopen : sessionOpenResult flags w = PResult.fail e) :
    runDoWithUniverse flags w =
      ((openOrCreateUniverse flags.dir flags.snapshot flags.verbose flags.vmgraphics
          flags.wait flags.acceleration w.provider).1.map Call.provider,
        some ("Getting universe: " ++ e)) := by
  unfold sessionOpenResult at hopen
  simp only [runDoWithUniverse]
  split <;> rename_i heq <;> rw [heq] at hopen <;> simp at hopen
  subst hopen
  rw [heq]

lemma runDo_ok_trace (flags : universeFlags) (w : World) (u : Universe)
    (hopen : sessionOpenResult flags w = PResult.ok u) :
    (runDoWithUniverse flags w).1 =
      (openOrCreateUniverse flags.dir flags.snapshot flags.verbose flags.vmgraphics
          flags.wait flags.acceleration w.provider).1.map Call.provider ++
        runTail flags w := by
  unfold sessionOpenResult at hopen
  simp only [runDoWithUniverse, runTail]
  split <;> rename_i heq <;> rw [heq] at hopen <;> simp at hopen
  rw [heq]
  cases hde : w.doErr
  · by_cases hs : flags.save
    · cases hse : w.saveErr <;> simp [hde, hs, hse]
    · cases hce : w.closeErr <;> simp [hde, hs, hce]
  · simp [hde]

lemma runDo_ok_err (flags : universeFlags) (w : World) (u : Universe)
    (hopen : sessionOpenResult flags w = PResult.ok u) :
    (runDoWithUniverse flags w).2 = runErr flags w := by
  unfold sessionOpenResult at hopen
  simp only [runDoWithUniverse, runErr]
  split <;> rename_i heq <;> rw [heq] at hopen <;> simp at hopen
  cases hde : w.doErr
  · by_cases hs : flags.save
    · cases hse : w.saveErr <;> simp [hde, hs, hse]
    · cases hce : w.closeErr <;> simp [hde, hs, hce]
  · simp [hde]

lemma runTail_save_name (flags : universeFlags) (w : World) (n : String)
    (h : Call.save n ∈ runTail flags w) :
    n = effectiveSaveName flags.saveName flags.snapshot := by
  unfold runTail at h
  cases hde : w.doErr <;> rw [hde] at h
  · split_ifs at h <;> simp_all
  · simp at h

lemma filter_provider_eq_nil (p : Call → Bool) (hp : ∀ c, p (Call.provider c) = false)
    (l : List PCall) : (l.map Call.provider).filter p = [] := by
  induction l with
  | nil => rfl
  | cons c l ih => simp [hp, ih]

lemma openOrCreate_calls_cfg (dir snapshot : String)
    (verbose vmgraphics interactive acceleration : Bool) (p : Provider) (c : PCall)
    (h : c ∈ (openOrCreateUniverse dir snapshot verbose vmgraphics
        interactive acceleration p).1) :
    PCall.cfg c = mkUniverseConfig verbose vmgraphics interactive acceleration := by
  unfold openOrCreateUniverse at h
  by_cases hdir : dir = ""
  · simp [hdir] at h
  · rw [if_neg hdir] at h
    rcases p with ⟨st, cr, op⟩
    cases st <;> cases cr <;> cases op <;> simp_all [PCall.cfg]

lemma runCancel_fires_invariant (as : List CAction) (s : CancelState)
    (h : s.fires = if s.cancelled then 1 else 0) :
    (as.foldl stepCancel s).fires =
      if (as.foldl stepCancel s).cancelled then 1 else 0 := by
  induction as generalizing s with
  | nil => simpa using h
  | cons a as ih =>
    simp only [List.foldl_cons]
    apply ih
    cases a <;> simp only [stepCancel, cancel] <;> split <;> simp_all

/-- C6: for all interrupt timings and any number of interrupt deliveries
(interleaved arbitrarily with the main function's own deferred cancel), the
shared cancellation event fires at most once; triggers after the first
cancellation are no-ops. -/
theorem cancellation_fires_at_most_once (as : List CAction) :
    (runCancel as).fires ≤ 1 := by
  have h := runCancel_fires_invariant as { cancelled := false, fires := 0 } rfl
  unfold runCancel
  rw [h]
  split <;> simp

/-- C8: the displayed duration is the elapsed duration truncated to whole
milliseconds when it is under one second and truncated to whole seconds
otherwise; the tenth-of-a-second branch of the source's switch is dead
because its condition repeats the first branch's, so no other granularity is
ever applied. -/
theorem displayDuration_two_granularities (d : Int) :
    displayDuration d =
      if d < Second then Duration.truncate d Millisecond
      else Duration.truncate d Second := by
  unfold displayDuration
  split <;> simp_all

/-- C4: for a non-empty directory path, the open-or-create step takes
exactly one branch: on a not-exists stat it performs exactly the create
call, on a successful stat exactly the open call with the requested
snapshot, and on any other stat error it performs no provider call and
returns that error unmodified. -/
theorem openOrCreate_one_branch (dir snapshot : String)
    (verbose vmgraphics interactive acceleration : Bool) (p : Provider)
    (hdir : dir ≠ "") :
    (p.stat = StatResult.notExists →
      (openOrCreateUniverse dir snapshot verbose vmgraphics interactive
          acceleration p).1 =
        [PCall.create dir (mkUniverseConfig verbose vmgraphics interactive acceleration)]) ∧
    (p.stat = StatResult.found →
      (openOrCreateUniverse dir snapshot verbose vmgraphics interactive
          acceleration p).1 =
        [PCall.openU dir snapshot (mkUniverseConfig verbose vmgraphics interactive acceleration)]) ∧
    (∀ e, p.stat = StatResult.statError e →
      openOrCreateUniverse dir snapshot verbose vmgraphics interactive
          acceleration p = ([], PResult.fail e)) := by
  unfold openOrCreateUniverse
  rw [if_neg hdir]
  rcases p with ⟨st, cr, op⟩
  cases st <;> cases cr <;> cases op <;> simp_all

/-- Witness for C4 at a concrete input: the directory "u" does not exist,
so exactly the create call is performed. -/
theorem openOrCreate_one_branch_witness :
    (openOrCreateUniverse "u" "" false false false false
        { stat := StatResult.notExists, createResult := PResult.ok {},
          openResult := PResult.ok {} }).1 =
      [PCall.create "u" (mkUniverseConfig false false false false)] :=
  (openOrCreate_one_branch "u" "" false false false false
    { stat := StatResult.notExists, createResult := PResult.ok {},
      openResult := PResult.ok {} } (by decide)).1 rfl

/-- C1: every name ever passed to Save equals the override save-snapshot
name when that is non-empty, and the original open snapshot name (possibly
empty) when the override is empty. -/
theorem save_target_is_override_else_snapshot (flags : universeFlags)
    (w : World) (n : String)
    (h : Call.save n ∈ (runDoWithUniverse flags w).1) :
    n = if flags.saveName = "" then flags.snapshot else flags.saveName := by
  rw [← effectiveSaveName_eq]
  cases hopen : sessionOpenResult flags w with
  | fail e =>
    rw [runDo_fail flags w e hopen] at h
    simp at h
  | ok u =>
    rw [runDo_ok_trace flags w u hopen] at h
    rcases List.mem_append.mp h with h1 | h2
    · simp at h1
    · exact runTail_save_name flags w n h2

/-- Witness for C1 at a concrete input: override empty, snapshot "base",
Save receives "base". -/
theorem save_target_is_override_else_snapshot_witness :
    "base" = (if ("" : String) = "" then "base" else "") :=
  save_target_is_override_else_snapshot
    { dir := "u", snapshot := "base", verbose := false, vmgraphics := false,
      acceleration := true, wait := false, save := true, saveName := "" }
    { provider := { stat := StatResult.found, createResult := PResult.ok {},
                    openResult := PResult.ok {} },
      doErr := none, saveErr := none, closeErr := none } "base" (by decide)

/-- C2 counterexample: in a concrete session that reaches Running (the open
succeeds), with save requested and everything succeeding, the call trace
contains both a Save invocation and a Close invocation — the deferred
safety-close runs on the save path too, so it is not true that exactly one
of Save and Close is invoked. -/
theorem save_session_also_closes :
    sessionOpenResult
        { dir := "u", snapshot := "base", verbose := false, vmgraphics := false,
          acceleration := true, wait := false, save := true, saveName := "" }
        { provider := { stat := StatResult.found, createResult := PResult.ok {},
                        openResult := PResult.ok {} },
          doErr := none, saveErr := none, closeErr := none } = PResult.ok {} ∧
    Call.save "base" ∈ (runDoWithUniverse
        { dir := "u", snapshot := "base", verbose := false, vmgraphics := false,
          acceleration := true, wait := false, save := true, saveName := "" }
        { provider := { stat := StatResult.found, createResult := PResult.ok {},
                        openResult := PResult.ok {} },
          doErr := none, saveErr := none, closeErr := none }).1 ∧
    Call.close ∈ (runDoWithUniverse
        { dir := "u", snapshot := "base", verbose := false, vmgraphics := false,
          acceleration := true, wait := false, save := true, saveName := "" }
        { provider := { stat := StatResult.found, createResult := PResult.ok {},
                        openResult := PResult.ok {} },
          doErr := none, saveErr := none, closeErr := none }).1 := by
  decide

/-- C2 amended: in every session that reaches Running, exactly one
finalization decision is made — Save is invoked exactly once when save was
requested and the work succeeded, and zero times otherwise — but the
deferred safety-close additionally invokes Close on every such session, so
at least one Close call occurs even on the save path. -/
theorem finalization_saves_iff_requested_and_ok (flags : universeFlags)
    (w : World) (u : Universe)
    (hopen : sessionOpenResult flags w = PResult.ok u) :
    countSave (runDoWithUniverse flags w).1 =
      (if flags.save = true ∧ w.doErr = none then 1 else 0) ∧
    1 ≤ countClose (runDoWithUniverse flags w).1 := by
  have hS : ∀ l : List PCall, (l.map Call.provider).filter Call.isSave = [] :=
    filter_provider_eq_nil Call.isSave (fun _ => rfl)
  have hC : ∀ l : List PCall, (l.map Call.provider).filter Call.isClose = [] :=
    filter_provider_eq_nil Call.isClose (fun _ => rfl)
  rw [runDo_ok_trace flags w u hopen]
  unfold countSave countClose runTail
  cases hde : w.doErr <;> by_cases hs : flags.save = true <;>
    by_cases hw : flags.wait = true <;>
    simp [hde, hs, hw, List.filter_append, hS, hC, Call.isSave, Call.isClose]

/-- Witness for the amended C2 at a concrete input: a successful save
session performs exactly one Save and at least one Close. -/
theorem finalization_saves_iff_requested_and_ok_witness :
    countSave (runDoWithUniverse
        { dir := "u", snapshot := "base", verbose := false, vmgraphics := false,
          acceleration := true, wait := false, save := true, saveName := "" }
        { provider := { stat := StatResult.found, createResult := PResult.ok {},
                        openResult := PResult.ok {} },
          doErr := none, saveErr := none, closeErr := none }).1 =
      (if (true = true ∧ (none : Option Err) = none) then 1 else 0) ∧
    1 ≤ countClose (runDoWithUniverse
        { dir := "u", snapshot := "base", verbose := false, vmgraphics := false,
          acceleration := true, wait := false, save := true, saveName := "" }
        { provider := { stat := StatResult.found, createResult := PResult.ok {},
                        openResult := PResult.ok {} },
          doErr := none, saveErr := none, closeErr := none }).1 :=
  finalization_saves_iff_requested_and_ok
    { dir := "u", snapshot := "base", verbose := false, vmgraphics := false,
      acceleration := true, wait := false, save := true, saveName := "" }
    { provider := { stat := StatResult.found, createResult := PResult.ok {},
                    openResult := PResult.ok {} },
      doErr := none, saveErr := none, closeErr := none } {} (by decide)

/-- C3: whenever the work function fails, Save is never invoked (even if
requested), the environment is discarded via the (deferred) Close, and the
wait/reporting phase is skipped entirely. -/
theorem work_error_discards (flags : universeFlags) (w : World) (u : Universe)
    (e : Err) (hopen : sessionOpenResult flags w = PResult.ok u)
    (hde : w.doErr = some e) :
    (∀ n, Call.save n ∉ (runDoWithUniverse flags w).1) ∧
    Call.close ∈ (runDoWithUniverse flags w).1 ∧
    Call.waitPhase ∉ (runDoWithUniverse flags w).1 := by
  rw [runDo_ok_trace flags w u hopen]
  unfold runTail
  rw [hde]
  simp

/-- Witness for C3 at a concrete input with save and wait both requested and
a failing work function. -/
theorem work_error_discards_witness :
    (∀ n, Call.save n ∉ (runDoWithUniverse
        { dir := "u", snapshot := "base", verbose := false, vmgraphics := false,
          acceleration := true, wait := true, save := true, saveName := "" }
        { provider := { stat := StatResult.found, createResult := PResult.ok {},
                        openResult := PResult.ok {} },
          doErr := some "boom", saveErr := none, closeErr := none }).1) ∧
    Call.close ∈ (runDoWithUniverse
        { dir := "u", snapshot := "base", verbose := false, vmgraphics := false,
          acceleration := true, wait := true, save := true, saveName := "" }
        { provider := { stat := StatResult.found, createResult := PResult.ok {},
                        openResult := PResult.ok {} },
          doErr := some "boom", saveErr := none, closeErr := none }).1 ∧
    Call.waitPhase ∉ (runDoWithUniverse
        { dir := "u", snapshot := "base", verbose := false, vmgraphics := false,
          acceleration := true, wait := true, save := true, saveName := "" }
        { provider := { stat := StatResult.found, createResult := PResult.ok {},
                        openResult := PResult.ok {} },
          doErr := some "boom", saveErr := none, closeErr := none }).1 :=
  work_error_discards
    { dir := "u", snapshot := "base", verbose := false, vmgraphics := false,
      acceleration := true, wait := true, save := true, saveName := "" }
    { provider := { stat := StatResult.found, createResult := PResult.ok {},
                    openResult := PResult.ok {} },
      doErr := some "boom", saveErr := none, closeErr := none } {} "boom"
    (by decide) rfl

/-- C5: if the open-or-create step fails, the wrapped error is returned
immediately: the work function is never invoked and no Save or Close is
performed on any environment handle. -/
theorem open_failure_aborts (flags : universeFlags) (w : World) (e : Err)
    (hopen : sessionOpenResult flags w = PResult.fail e) :
    Call.doWork ∉ (runDoWithUniverse flags w).1 ∧
    (∀ n, Call.save n ∉ (runDoWithUniverse flags w).1) ∧
    Call.close ∉ (runDoWithUniverse flags w).1 ∧
    (runDoWithUniverse flags w).2 = some ("Getting universe: " ++ e) := by
  rw [runDo_fail flags w e hopen]
  simp

/-- Witness for C5 at a concrete input: the stat fails with a permission
error, nothing beyond the open phase happens. -/
theorem open_failure_aborts_witness :
    Call.doWork ∉ (runDoWithUniverse
        { dir := "u", snapshot := "", verbose := false, vmgraphics := false,
          acceleration := true, wait := false, save := true, saveName := "" }
        { provider := { stat := StatResult.statError "eperm",
                        createResult := PResult.ok {}, openResult := PResult.ok {} },
          doErr := none, saveErr := none, closeErr := none }).1 ∧
    (∀ n, Call.save n ∉ (runDoWithUniverse
        { dir := "u", snapshot := "", verbose := false, vmgraphics := false,
          acceleration := true, wait := false, save := true, saveName := "" }
        { provider := { stat := StatResult.statError "eperm",
                        createResult := PResult.ok {}, openResult := PResult.ok {} },
          doErr := none, saveErr := none, closeErr := none }).1) ∧
    Call.close ∉ (runDoWithUniverse
        { dir := "u", snapshot := "", verbose := false, vmgraphics := false,
          acceleration := true, wait := false, save := true, saveName := "" }
        { provider := { stat := StatResult.statError "eperm",
                        createResult := PResult.ok {}, openResult := PResult.ok {} },
          doErr := none, saveErr := none, closeErr := none }).1 ∧
    (runDoWithUniverse
        { dir := "u", snapshot := "", verbose := false, vmgraphics := false,
          acceleration := true, wait := false, save := true, saveName := "" }
        { provider := { stat := StatResult.statError "eperm",
                        createResult := PResult.ok {}, openResult := PResult.ok {} },
          doErr := none, saveErr := none, closeErr := none }).2 =
      some ("Getting universe: " ++ "eperm") :=
  open_failure_aborts
    { dir := "u", snapshot := "", verbose := false, vmgraphics := false,
      acceleration := true, wait := false, save := true, saveName := "" }
    { provider := { stat := StatResult.statError "eperm",
                    createResult := PResult.ok {}, openResult := PResult.ok {} },
      doErr := none, saveErr := none, closeErr := none } "eperm" rfl

/-- C7: when the work function fails, the error returned by the lifecycle
controller is the work function's error unchanged: no phase tag is added and
no error from the deferred safety-close replaces it. -/
theorem work_error_is_returned_unwrapped (flags : universeFlags) (w : World)
    (u : Universe) (e : Err) (hopen : sessionOpenResult flags w = PResult.ok u)
    (hde : w.doErr = some e) :
    (runDoWithUniverse flags w).2 = some e := by
  rw [runDo_ok_err flags w u hopen]
  unfold runErr
  rw [hde]

/-- Witness for C7 at a concrete input: the returned error is exactly the
work function's "boom". -/
theorem work_error_is_returned_unwrapped_witness :
    (runDoWithUniverse
        { dir := "u", snapshot := "base", verbose := false, vmgraphics := false,
          acceleration := true, wait := false, save := true, saveName := "" }
        { provider := { stat := StatResult.found, createResult := PResult.ok {},
                        openResult := PResult.ok {} },
          doErr := some "boom", saveErr := none, closeErr := none }).2 =
      some "boom" :=
  work_error_is_returned_unwrapped
    { dir := "u", snapshot := "base", verbose := false, vmgraphics := false,
      acceleration := true, wait := false, save := true, saveName := "" }
    { provider := { stat := StatResult.found, createResult := PResult.ok {},
                    openResult := PResult.ok {} },
      doErr := some "boom", saveErr := none, closeErr := none } {} "boom"
    (by decide) rfl

/-- C9: every provider call performed by the lifecycle controller carries a
configuration whose Interactive field equals the wait option — the provider
is told the session is interactive exactly when wait is set. -/
theorem interactive_equals_wait (flags : universeFlags) (w : World) (c : PCall)
    (h : Call.provider c ∈ (runDoWithUniverse flags w).1) :
    (PCall.cfg c).interactive = flags.wait := by
  have hc : c ∈ (openOrCreateUniverse flags.dir flags.snapshot flags.verbose
      flags.vmgraphics flags.wait flags.acceleration w.provider).1 := by
    cases hopen : sessionOpenResult flags w with
    | fail e =>
      rw [runDo_fail flags w e hopen] at h
      simpa using h
    | ok u =>
      rw [runDo_ok_trace flags w u hopen] at h
      rcases List.mem_append.mp h with h1 | h2
      · simpa using h1
      · exfalso
        unfold runTail at h2
        cases hde : w.doErr <;> rw [hde] at h2
        · split_ifs at h2 <;> simp at h2
        · simp at h2
  rw [openOrCreate_calls_cfg flags.dir flags.snapshot flags.verbose
      flags.vmgraphics flags.wait flags.acceleration w.provider c hc]
  rfl

/-- Witness for C9 at a concrete input: wait is false and the open call's
configuration has Interactive false. -/
theorem interactive_equals_wait_witness :
    (PCall.cfg (PCall.openU "u" "" (mkUniverseConfig false false false true))).interactive =
      false :=
  interactive_equals_wait
    { dir := "u", snapshot := "", verbose := false, vmgraphics := false,
      acceleration := true, wait := false, save := false, saveName := "" }
    { provider := { stat := StatResult.found, createResult := PResult.ok {},
                    openResult := PResult.ok {} },
      doErr := none, saveErr := none, closeErr := none }
    (PCall.openU "u" "" (mkUniverseConfig false false false true)) (by decide)

/-- C10: when the provider's Create or Open call fails, the returned
top-level error is wrapped twice with open-phase context: the inner
`getting universe:` tag from openOrCreateUniverse and the outer
`Getting universe:` tag from the lifecycle controller both appear. -/
theorem open_error_double_wrapped (flags : universeFlags) (w : World) (e : Err)
    (hdir : flags.dir ≠ "")
    (h : (w.provider.stat = StatResult.found ∧
          w.provider.openResult = PResult.fail e) ∨
         (w.provider.stat = StatResult.notExists ∧
          w.provider.createResult = PResult.fail e)) :
    (runDoWithUniverse flags w).2 =
      some ("Getting universe: " ++ ("getting universe: " ++ e)) := by
  have hopen : sessionOpenResult flags w =
      PResult.fail ("getting universe: " ++ e) := by
    unfold sessionOpenResult openOrCreateUniverse
    rcases h with ⟨h1, h2⟩ | ⟨h1, h2⟩ <;> rw [if_neg hdir] <;> simp [h1, h2]
  rw [runDo_fail flags w _ hopen]

/-- Witness for C10 at a concrete input: an Open failure "corrupt" comes
back with both prefixes. -/
theorem open_error_double_wrapped_witness :
    (runDoWithUniverse
        { dir := "u", snapshot := "base", verbose := false, vmgraphics := false,
          acceleration := true, wait := false, save := false, saveName := "" }
        { provider := { stat := StatResult.found, createResult := PResult.ok {},
                        openResult := PResult.fail "corrupt" },
          doErr := none, saveErr := none, closeErr := none }).2 =
      some ("Getting universe: " ++ ("getting universe: " ++ "corrupt")) :=
  open_error_double_wrapped
    { dir := "u", snapshot := "base", verbose := false, vmgraphics := false,
      acceleration := true, wait := false, save := false, saveName := "" }
    { provider := { stat := StatResult.found, createResult := PResult.ok {},
                    openResult := PResult.fail "corrupt" },
      doErr := none, saveErr := none, closeErr := none } "corrupt"
    (by decide) (Or.inl ⟨rfl, rfl⟩)
